import Mathlib

/-!
Verification of the `death` repository's calendar module (`src/date.rs`) and
prediction engine (`src/user.rs`) against its natural-language specification.

The Rust code is shallowly embedded: machine integers (u16, u8) become `Nat`
with explicit `% 2 ^ w` where overflow matters (release-mode wrapping
semantics), `Result<T, E>` becomes `Except E T`, and panicking `unwrap` calls
become `Option` with `none` on the error branch.  `chrono`'s `Local::now`
(the `today()` oracle) and std's `DefaultHasher` (a 64-bit string hash,
external to the repository) are modelled as explicit parameters `today : Date`
and `hasher : String → Nat`.
-/

deriving instance DecidableEq for Except

namespace Death

/-- `ParseError` from `src/date.rs`. -/
inductive ParseError where
  | SeparatorNotFound
  | InvalidPartsCount
  | NumberConversionError
  | InvalidYear
  | InvalidMonth
  | InvalidDay
deriving DecidableEq, Repr

/-- The `Date` struct from `src/date.rs`: `year: u16`, `month: u8`, `day: u8`,
each embedded as `Nat`. -/
structure Date where
  year : Nat
  month : Nat
  day : Nat
deriving DecidableEq, Repr

/-- `MAX_YEARS_OLD` constant from `src/date.rs`. -/
def MAX_YEARS_OLD : Nat := 100

/-- `Date::is_leap_year`: `year % 4 == 0 && year % 100 != 0 || year % 400 == 0`. -/
def is_leap_year (year : Nat) : Bool :=
  (year % 4 == 0 && year % 100 != 0) || year % 400 == 0

/-- `Date::max_day_of`: 29/28 for February depending on leap year, 31 for the
months in the list `[1, 3, 5, 7, 8, 10, 12]`, 30 otherwise. -/
def max_day_of (year month : Nat) : Nat :=
  if month = 2 then
    if is_leap_year year then 29 else 28
  else if [1, 3, 5, 7, 8, 10, 12].contains month then 31
  else 30

/-- `Date::build`: validates the year (nonzero), then the month (in `[1, 12]`),
then the day (in `[1, max_day_of year month]`), in that order. -/
def build (year month day : Nat) : Except ParseError Date :=
  if year = 0 then .error .InvalidYear
  else if month < 1 ∨ 12 < month then .error .InvalidMonth
  else if day < 1 ∨ max_day_of year month < day then .error .InvalidDay
  else .ok ⟨year, month, day⟩

/-- Strict lexicographic order on (year, month, day); the derived `Ord` of the
Rust `Date` struct compares fields in declaration order. -/
def date_lt (a b : Date) : Bool :=
  a.year < b.year ||
    (a.year == b.year &&
      (a.month < b.month || (a.month == b.month && a.day < b.day)))

/-- `std::cmp::min` on dates (first argument on ties). -/
def date_min (a b : Date) : Date := if date_lt b a then b else a

/-- `std::cmp::max` on dates (second argument on ties). -/
def date_max (a b : Date) : Date := if date_lt b a then a else b

/-- `Date::years_from`: full elapsed years between two dates, using
`min`/`max` internally and the anniversary-not-yet-reached adjustment. -/
def years_from (self other : Date) : Nat :=
  let left := date_min self other
  let right := date_max self other
  let diff := right.year - left.year
  if right.month < left.month ∨ (right.month = left.month ∧ right.day < left.day)
  then diff - 1 else diff

/-- Rust's `x.clamp(lo, hi)` on naturals. -/
def clampNat (lo hi x : Nat) : Nat :=
  if x < lo then lo else if hi < x then hi else x

/-- `Date::next_month`: increments the month (December wraps to January with
the year increased; the u16 year increment wraps at `2 ^ 16`), then clamps the
day into `[1, max day of the new month]`. -/
def next_month (d : Date) : Date :=
  let d0 : Date :=
    if d.month = 12 then ⟨(d.year + 1) % 65536, 1, d.day⟩
    else ⟨d.year, d.month + 1, d.day⟩
  ⟨d0.year, d0.month, clampNat 1 (max_day_of d0.year d0.month) d0.day⟩

/-- `Date::next_day`: increments the day; at the month's max day rolls to day 1
of the next month, and past December rolls to January with the year increased
(the u16 year increment wraps at `2 ^ 16`). -/
def next_day (d : Date) : Date :=
  if d.day = max_day_of d.year d.month then
    if d.month = 12 then ⟨(d.year + 1) % 65536, 1, 1⟩
    else ⟨d.year, d.month + 1, 1⟩
  else ⟨d.year, d.month, d.day + 1⟩

/-- One separator-split step of Rust's `str::split` on a single char:
`n` occurrences of the separator yield `n + 1` parts, empty parts kept. -/
def splitChar : List Char → Char → List (List Char)
  | [], _ => [[]]
  | c :: cs, sep =>
    let r := splitChar cs sep
    if c = sep then [] :: r
    else
      match r with
      | [] => [[c]]
      | p :: ps => (c :: p) :: ps

/-- Rust's `str::parse::<u16>`: an optional leading `'+'`, then at least one
ASCII digit and nothing else, with the value required to fit in `u16`. -/
def parseU16 (cs : List Char) : Option Nat :=
  let ds :=
    match cs with
    | '+' :: rest => rest
    | _ => cs
  if ds = [] then none
  else if ds.all (fun c => c.isDigit) then
    let n := ds.foldl (fun acc c => acc * 10 + (c.toNat - 48)) 0
    if n ≤ 65535 then some n else none
  else none

/-- The parsing loop of `Date::parse`: parse every part as a `u16`, stopping
with failure at the first part that does not parse. -/
def parse_numbers : List (List Char) → Option (List Nat)
  | [] => some []
  | p :: ps =>
    match parseU16 p with
    | none => none
    | some n =>
      match parse_numbers ps with
      | none => none
      | some ns => some (n :: ns)

/-- `Date::parse`: find the first separator of `['.', '/', '-', ' ']` present
in the string, split on it, parse every part as a `u16` (failing with
`NumberConversionError` at the first invalid part, before the parts count is
examined), require exactly 3 parts, and delegate to `build` with the parts
read as `[day, month, year]`; the `as u8` casts on day and month truncate
modulo `2 ^ 8`. -/
def parse (s : String) : Except ParseError Date :=
  match ['.', '/', '-', ' '].find? (fun c => s.data.contains c) with
  | none => .error .SeparatorNotFound
  | some sep =>
    match parse_numbers (splitChar s.data sep) with
    | none => .error .NumberConversionError
    | some numbers =>
      match numbers with
      | [d, m, y] => build y (m % 256) (d % 256)
      | _ => .error .InvalidPartsCount

/-- `cli::parse_birthday` from `src/cli.rs`: parse the string and reject a
birthday strictly after `today`; the user-facing error messages are dropped
(`none` stands for any error). -/
def parse_birthday (s : String) (today : Date) : Option Date :=
  match parse s with
  | .error _ => none
  | .ok birthday => if date_lt today birthday then none else some birthday

/-- The `User` struct from `src/user.rs`. -/
structure User where
  birthday : Date
  name : String
deriving DecidableEq, Repr

/-- `User::new`: birthday `Date::build(1970, 1, 1).unwrap()` (the unwrap is
discharged by `Death.build_1970`) and name `"None"`. -/
def User.new : User := { birthday := ⟨1970, 1, 1⟩, name := "None" }

/-- The unwrap inside `User::new` succeeds and yields exactly
`User.new.birthday`. -/
theorem build_1970 : build 1970 1 1 = .ok User.new.birthday := by decide

/-- `User::set_birthday`. -/
def User.set_birthday (u : User) (birthday : Date) : User :=
  { u with birthday := birthday }

/-- `User::set_name`. -/
def User.set_name (u : User) (name : String) : User :=
  { u with name := name }

/-- `User::calculate_hash`: the source feeds the name to std's
`DefaultHasher` (a 64-bit hash external to this repository, modelled by the
parameter `hasher`) and truncates the 64-bit result to `u16` with an
`as u16` cast — the `% 65536` below is that cast. -/
def User.calculate_hash (hasher : String → Nat) (u : User) : Nat :=
  hasher u.name % 65536

/-- `User::years_old`: `birthday.years_from(today)`, with `Date::today()`
passed explicitly. -/
def User.years_old (u : User) (today : Date) : Nat :=
  years_from u.birthday today

/-- Wrapping u16 subtraction (Rust release-mode semantics of `a - b`);
both arguments are u16 values, i.e. below `2 ^ 16`. -/
def subWrap16 (a b : Nat) : Nat := (a + 65536 - b % 65536) % 65536

/-- `User::get_years_left`: `calculate_hash() % (MAX_YEARS_OLD - years_old()) + 1`.
The u16 subtraction is embedded as `subWrap16`.  (When the wrapped difference
is zero — `years_old` congruent to `MAX_YEARS_OLD` — the Rust `%` panics;
Lean's `% 0` is the identity there.  No theorem below touches that point.) -/
def User.get_years_left (hasher : String → Nat) (u : User) (today : Date) : Nat :=
  let max_left := subWrap16 MAX_YEARS_OLD (u.years_old today)
  u.calculate_hash hasher % max_left + 1

/-- The `dangers` list hardcoded inside `User::get_danger` (note entry 7 is
`"building"`). -/
def dangers : List String :=
  ["cars", "illness", "height", "darkness", "fire", "water", "nature",
   "building", "electricity", "explosions", "food", "animals", "temperature",
   "weapons"]

/-- `User::get_danger`: indexes the hardcoded `dangers` list at
`calculate_hash() % dangers.len()`; the index is always in bounds, so the
`getD` default is never returned. -/
def User.get_danger (hasher : String → Nat) (u : User) : String :=
  dangers.getD (u.calculate_hash hasher % dangers.length) ""

/-- `default_death_reasons` from `src/lib.rs` (note entry 7 is
`"construction"`, not `"building"`). -/
def default_death_reasons : List String :=
  ["cars", "illness", "height", "darkness", "fire", "water", "nature",
   "construction", "electricity", "explosions", "food", "animals",
   "temperature", "weapons"]

/-- `User::get_death_date`: year is today's year plus `get_years_left` (u16
addition, wrapping), month is `hash % 12 + 1`, a provisional day 1 discovers
the month's max day, and the final day is `hash % max_day + 1`.  The two
`unwrap` calls are embedded as `Option`, `none` standing for the panic. -/
def User.get_death_date (hasher : String → Nat) (u : User) (today : Date) :
    Option Date :=
  let hash := u.calculate_hash hasher
  let year := (today.year + u.get_years_left hasher today) % 65536
  let month := hash % 12 + 1
  match build year month 1 with
  | .error _ => none
  | .ok date0 =>
    let day := hash % max_day_of date0.year date0.month + 1
    match build year month day with
    | .error _ => none
    | .ok date => some date

/-- The max-day table exactly as the specification words it: 31 for months
1, 3, 5, 7, 8, 10, 12; 30 for months 4, 6, 9, 11; for February 29 if the year
is leap (divisible by 4 and not by 100, or divisible by 400) else 28.
Written from the spec for comparison with `max_day_of` from the source. -/
def maxDaySpec (year month : Nat) : Nat :=
  if month = 1 ∨ month = 3 ∨ month = 5 ∨ month = 7 ∨ month = 8 ∨ month = 10 ∨
      month = 12 then 31
  else if month = 2 then
    if (year % 4 = 0 ∧ year % 100 ≠ 0) ∨ year % 400 = 0 then 29 else 28
  else 30

/-- `ValidDate` d: the invariant the specification states for every
constructed date. -/
def ValidDate (d : Date) : Prop :=
  1 ≤ d.year ∧ 1 ≤ d.month ∧ d.month ≤ 12 ∧ 1 ≤ d.day ∧
    d.day ≤ max_day_of d.year d.month

instance (d : Date) : Decidable (ValidDate d) := by
  unfold ValidDate; infer_instance

/-- `is_leap_year` agrees with the spec's leap-year predicate. -/
lemma is_leap_year_iff (year : Nat) :
    is_leap_year year = true ↔
      (year % 4 = 0 ∧ year % 100 ≠ 0) ∨ year % 400 = 0 := by
  simp [is_leap_year]

/-- Every month's max day is at least 28. -/
lemma max_day_ge (year month : Nat) : 28 ≤ max_day_of year month := by
  unfold max_day_of
  split_ifs <;> omega

/-- On months 1..12, the source's `max_day_of` computes the spec's table. -/
lemma max_day_of_eq_spec (year month : Nat) (h1 : 1 ≤ month)
    (h2 : month ≤ 12) : max_day_of year month = maxDaySpec year month := by
  by_cases hL : (year % 4 = 0 ∧ year % 100 ≠ 0) ∨ year % 400 = 0
  · have h29 : is_leap_year year = true := (is_leap_year_iff year).mpr hL
    interval_cases month <;> simp [max_day_of, maxDaySpec, h29, hL]
  · have h28 : is_leap_year year = false :=
      Bool.eq_false_iff.mpr (fun hx => hL ((is_leap_year_iff year).mp hx))
    interval_cases month <;> simp [max_day_of, maxDaySpec, h28, hL]

/-- C1: `build year month day` succeeds iff year ≥ 1, month in [1, 12] and
day in [1, maxDay year month], where `max_day_of` realises the spec's table
(31/30/29-28 with the stated leap-year rule); on failure the error is
`InvalidYear` for a zero year, else `InvalidMonth` for a month out of [1, 12],
else `InvalidDay`, in that precedence.  The bounds on the arguments are the
u16/u8 ranges of the Rust signature. -/
theorem build_spec (year month day : Nat)
    (hy : year ≤ 65535) (hm : month ≤ 255) (hd : day ≤ 255) :
    ((∃ d, build year month day = .ok d) ↔
      1 ≤ year ∧ 1 ≤ month ∧ month ≤ 12 ∧ 1 ≤ day ∧
        day ≤ max_day_of year month)
    ∧ (1 ≤ month → month ≤ 12 → max_day_of year month = maxDaySpec year month)
    ∧ (is_leap_year year = true ↔
        (year % 4 = 0 ∧ year % 100 ≠ 0) ∨ year % 400 = 0)
    ∧ (year = 0 → build year month day = .error .InvalidYear)
    ∧ (year ≠ 0 → ¬ (1 ≤ month ∧ month ≤ 12) →
        build year month day = .error .InvalidMonth)
    ∧ (year ≠ 0 → 1 ≤ month → month ≤ 12 →
        ¬ (1 ≤ day ∧ day ≤ max_day_of year month) →
        build year month day = .error .InvalidDay) := by
  refine ⟨?_, max_day_of_eq_spec year month, is_leap_year_iff year, ?_, ?_, ?_⟩
  · constructor
    · rintro ⟨d, hok⟩
      unfold build at hok
      split_ifs at hok with h1 h2 h3
      · omega
    · intro h
      unfold build
      split_ifs with h1 h2 h3
      · omega
      · omega
      · omega
      · exact ⟨_, rfl⟩
  · intro h
    unfold build
    rw [if_pos h]
  · intro h1 h2
    unfold build
    rw [if_neg h1, if_pos (by omega)]
  · intro h1 h2 h3 h4
    unfold build
    rw [if_neg h1, if_neg (by omega), if_pos (by omega)]

/-- C1 witness: `build` succeeds on 29 February 2016. -/
theorem build_spec_witness : ∃ d, build 2016 2 29 = .ok d :=
  (build_spec 2016 2 29 (by decide) (by decide) (by decide)).1.mpr (by decide)

/-- C2 counterexample: the claim orders the parts-count check before numeric
parsing and says the parts are passed to `build` unchanged.  On `"a.b"` the
split yields 2 parts, so the claim predicts `InvalidPartsCount`, but the code
parses the parts first and answers `NumberConversionError`; and on
`"1.257.2015"` the claim predicts `build 2015 257 1 = InvalidMonth`, but the
code truncates the month with an `as u8` cast and succeeds. -/
theorem parse_order_cx :
    splitChar "a.b".data '.' = [['a'], ['b']]
    ∧ parse "a.b" = .error .NumberConversionError
    ∧ ParseError.NumberConversionError ≠ ParseError.InvalidPartsCount
    ∧ parse "1.257.2015" = .ok ⟨2015, 1, 1⟩
    ∧ build 2015 257 1 = .error .InvalidMonth := by
  decide

/-- C2 (amended): `parse` scans the separators `'.'`, `'/'`, `'-'`, `' '` in
that order and splits on the first one present; with no separator it fails
with `SeparatorNotFound`; it then parses every part as an unsigned 16-bit
integer, failing with `NumberConversionError` on any invalid part (this check
precedes the parts count); only when all parts parse does it fail with
`InvalidPartsCount` unless there are exactly 3 parts; finally the parts are
read positionally as `[day, month, year]` and the result is
`build year (month % 256) (day % 256)`, the `% 256` being the `as u8` casts. -/
theorem parse_spec (s : String) :
    (['.', '/', '-', ' '].find? (fun c => s.data.contains c) = none →
      parse s = .error .SeparatorNotFound)
    ∧ (∀ sep, ['.', '/', '-', ' '].find? (fun c => s.data.contains c) = some sep →
        (parse_numbers (splitChar s.data sep) = none →
          parse s = .error .NumberConversionError)
        ∧ (∀ ns, parse_numbers (splitChar s.data sep) = some ns →
            ns.length ≠ 3 → parse s = .error .InvalidPartsCount)
        ∧ (∀ d m y, parse_numbers (splitChar s.data sep) = some [d, m, y] →
            parse s = build y (m % 256) (d % 256))) := by
  constructor
  · intro h
    simp only [parse, h]
  · intro sep hsep
    refine ⟨?_, ?_, ?_⟩
    · intro h
      simp only [parse, hsep, h]
    · intro ns hns hlen
      simp only [parse, hsep, hns]
      rcases ns with _ | ⟨a, _ | ⟨b, _ | ⟨c, _ | ⟨e, tl⟩⟩⟩⟩
      · rfl
      · rfl
      · rfl
      · exact absurd rfl hlen
      · rfl
    · intro d m y h
      simp only [parse, hsep, h]

/-- C2 witness: on `"23.10.2015"` the first separator present is `'.'`, the
parts parse to `[23, 10, 2015]`, and `parse` delegates to `build`. -/
theorem parse_spec_witness :
    parse "23.10.2015" = build 2015 (10 % 256) (23 % 256) :=
  ((parse_spec "23.10.2015").2 '.' (by decide)).2.2 23 10 2015 (by decide)

/-- The derived strict order unfolded to arithmetic. -/
lemma date_lt_eq_true_iff (a b : Date) :
    date_lt a b = true ↔
      a.year < b.year ∨ (a.year = b.year ∧
        (a.month < b.month ∨ (a.month = b.month ∧ a.day < b.day))) := by
  simp [date_lt]

/-- C8: `years_from` is symmetric, and (writing `later`/`earlier` for the
max/min of the two dates by the full date order and `Δ` for the absolute
difference of the two years) it equals `Δ - 1` exactly when the later date's
(month, day) has not yet reached the earlier date's (month, day) — in which
case `Δ ≥ 1`, so `Δ - 1 ≠ Δ` — and `Δ` otherwise. -/
theorem years_from_spec (a b : Date) :
    years_from a b = years_from b a
    ∧ ((date_max a b).month < (date_min a b).month ∨
        ((date_max a b).month = (date_min a b).month ∧
          (date_max a b).day < (date_min a b).day) →
        years_from a b = max a.year b.year - min a.year b.year - 1
        ∧ 1 ≤ max a.year b.year - min a.year b.year)
    ∧ (¬ ((date_max a b).month < (date_min a b).month ∨
        ((date_max a b).month = (date_min a b).month ∧
          (date_max a b).day < (date_min a b).day)) →
        years_from a b = max a.year b.year - min a.year b.year) := by
  by_cases h1 : date_lt b a = true <;> by_cases h2 : date_lt a b = true <;>
    rw [date_lt_eq_true_iff] at h1 h2 <;>
    obtain ⟨y1, m1, d1⟩ := a <;> obtain ⟨y2, m2, d2⟩ := b <;>
    simp only at h1 h2 <;>
    simp only [years_from, date_min, date_max, date_lt_eq_true_iff,
      if_pos, if_neg, date_lt] <;>
    simp only [decide_eq_true_eq, Bool.or_eq_true, Bool.and_eq_true,
      beq_iff_eq] <;>
    split_ifs <;>
    simp_all <;> omega

/-- C9 counterexample: 31 December 65535 is a valid date (the year field is a
u16), but `next_day` wraps the year increment to 0 and returns the invalid
date 1 January 0; `next_month` likewise returns 31 January 0. -/
theorem next_overflow_cx :
    ValidDate ⟨65535, 12, 31⟩
    ∧ next_day ⟨65535, 12, 31⟩ = ⟨0, 1, 1⟩
    ∧ ¬ ValidDate (next_day ⟨65535, 12, 31⟩)
    ∧ next_month ⟨65535, 12, 31⟩ = ⟨0, 1, 31⟩
    ∧ ¬ ValidDate (next_month ⟨65535, 12, 31⟩) := by
  decide

/-- C9 (amended): for every valid date whose year is below 65535 (so the u16
year increment cannot wrap), `next_day` and `next_month` return valid dates;
`next_day` increments the day, rolling to day 1 of the next month at the
month's max day and to January with year + 1 past December; `next_month`
increments the month, wrapping December to January with year + 1, and clamps
the day into [1, max day of the new month]. -/
theorem next_valid_spec (d : Date) (hv : ValidDate d) (hy : d.year < 65535) :
    ValidDate (next_day d)
    ∧ ValidDate (next_month d)
    ∧ (d.day < max_day_of d.year d.month →
        next_day d = ⟨d.year, d.month, d.day + 1⟩)
    ∧ (d.day = max_day_of d.year d.month → d.month < 12 →
        next_day d = ⟨d.year, d.month + 1, 1⟩)
    ∧ (d.day = max_day_of d.year d.month → d.month = 12 →
        next_day d = ⟨d.year + 1, 1, 1⟩)
    ∧ (d.month < 12 →
        next_month d = ⟨d.year, d.month + 1,
          clampNat 1 (max_day_of d.year (d.month + 1)) d.day⟩)
    ∧ (d.month = 12 →
        next_month d = ⟨d.year + 1, 1,
          clampNat 1 (max_day_of (d.year + 1) 1) d.day⟩) := by
  obtain ⟨hy1, hm1, hm2, hd1, hd2⟩ := hv
  have hmod : (d.year + 1) % 65536 = d.year + 1 := Nat.mod_eq_of_lt (by omega)
  refine ⟨?_, ?_, ?_, ?_, ?_, ?_, ?_⟩
  · have h28a := max_day_ge ((d.year + 1) % 65536) 1
    have h28b := max_day_ge d.year (d.month + 1)
    unfold next_day ValidDate
    split_ifs <;> dsimp only <;> refine ⟨?_, ?_, ?_, ?_, ?_⟩ <;> omega
  · have h28a := max_day_ge ((d.year + 1) % 65536) 1
    have h28b := max_day_ge d.year (d.month + 1)
    unfold next_month clampNat ValidDate
    dsimp only
    split_ifs <;> dsimp only at * <;> refine ⟨?_, ?_, ?_, ?_, ?_⟩ <;> omega
  · intro h
    unfold next_day
    rw [if_neg (by omega)]
  · intro h h12
    unfold next_day
    rw [if_pos h, if_neg (by omega)]
  · intro h h12
    unfold next_day
    rw [if_pos h, if_pos h12, hmod]
  · intro h
    unfold next_month
    rw [if_neg (by omega)]
  · intro h
    unfold next_month
    rw [if_pos h, hmod]

/-- C9 witness: 31 January 2015 steps to 1 February 2015 by `next_day` and
clamps to 28 February 2015 by `next_month`, both valid. -/
theorem next_valid_spec_witness :
    ValidDate (next_day ⟨2015, 1, 31⟩) ∧ ValidDate (next_month ⟨2015, 1, 31⟩) :=
  ⟨(next_valid_spec ⟨2015, 1, 31⟩ (by decide) (by decide)).1,
   (next_valid_spec ⟨2015, 1, 31⟩ (by decide) (by decide)).2.1⟩

/-- C8 witness: 12 May 1998 and 2 April 2015 — the anniversary has not been
reached, so the full years are `(2015 - 1998) - 1 = 16`, symmetrically. -/
theorem years_from_spec_witness :
    years_from ⟨1998, 5, 12⟩ ⟨2015, 4, 2⟩ = years_from ⟨2015, 4, 2⟩ ⟨1998, 5, 12⟩
    ∧ years_from ⟨1998, 5, 12⟩ ⟨2015, 4, 2⟩ =
        max 1998 2015 - min 1998 2015 - 1 :=
  ⟨(years_from_spec ⟨1998, 5, 12⟩ ⟨2015, 4, 2⟩).1,
   ((years_from_spec ⟨1998, 5, 12⟩ ⟨2015, 4, 2⟩).2.1 (by decide)).1⟩

/-- The truncated hash is a u16 value. -/
lemma calculate_hash_lt (hasher : String → Nat) (u : User) :
    u.calculate_hash hasher < 65536 :=
  Nat.mod_lt _ (by omega)

/-- The wrapping u16 subtraction agrees with `Nat` subtraction when it does
not underflow. -/
lemma subWrap16_eq (a b : Nat) (hb : b ≤ a) (ha : a < 65536) :
    subWrap16 a b = a - b := by
  unfold subWrap16
  omega

/-- When the age is below the bound, `get_years_left` computes the exact
(non-wrapped) formula. -/
lemma years_left_eq (hasher : String → Nat) (u : User) (today : Date)
    (h : u.years_old today < MAX_YEARS_OLD) :
    u.get_years_left hasher today =
      u.calculate_hash hasher % (MAX_YEARS_OLD - u.years_old today) + 1 := by
  unfold User.get_years_left
  rw [subWrap16_eq _ _ (le_of_lt h) (by unfold MAX_YEARS_OLD; omega)]

/-- When the age is below the bound, `get_years_left` lies in
`[1, MAX_YEARS_OLD - age]`. -/
lemma years_left_bounds (hasher : String → Nat) (u : User) (today : Date)
    (h : u.years_old today < MAX_YEARS_OLD) :
    1 ≤ u.get_years_left hasher today
    ∧ u.get_years_left hasher today ≤ MAX_YEARS_OLD - u.years_old today := by
  rw [years_left_eq hasher u today h]
  have hm : u.calculate_hash hasher % (MAX_YEARS_OLD - u.years_old today) <
      MAX_YEARS_OLD - u.years_old today :=
    Nat.mod_lt _ (by omega)
  omega

/-- C4: for every profile whose age is below `MAX_YEARS_OLD` (the
`MAX_LIFESPAN_YEARS` of the spec, 100), `get_years_left` equals
`hash % (MAX_YEARS_OLD - age) + 1` and lies in `[1, MAX_YEARS_OLD - age]`. -/
theorem get_years_left_spec (hasher : String → Nat) (u : User) (today : Date)
    (h : u.years_old today < MAX_YEARS_OLD) :
    u.get_years_left hasher today =
      u.calculate_hash hasher % (MAX_YEARS_OLD - u.years_old today) + 1
    ∧ 1 ≤ u.get_years_left hasher today
    ∧ u.get_years_left hasher today ≤ MAX_YEARS_OLD - u.years_old today :=
  ⟨years_left_eq hasher u today h, years_left_bounds hasher u today h⟩

/-- C4 witness: a fresh user (birthday 1970-01-01) on 12 October 2026 is 56,
below the bound, so the years left land in `[1, 44]`. -/
theorem get_years_left_spec_witness :
    User.new.get_years_left (fun _ => 0) ⟨2026, 10, 12⟩ =
      User.new.calculate_hash (fun _ => 0) %
        (MAX_YEARS_OLD - User.new.years_old ⟨2026, 10, 12⟩) + 1
    ∧ 1 ≤ User.new.get_years_left (fun _ => 0) ⟨2026, 10, 12⟩
    ∧ User.new.get_years_left (fun _ => 0) ⟨2026, 10, 12⟩ ≤
        MAX_YEARS_OLD - User.new.years_old ⟨2026, 10, 12⟩ :=
  get_years_left_spec (fun _ => 0) User.new ⟨2026, 10, 12⟩ (by decide)

/-- C3: for every profile whose age is below `MAX_YEARS_OLD`, and any current
date whose year is at most `65535 - MAX_YEARS_OLD` (so the u16 year addition
cannot wrap — true of any real calendar date), `get_death_date` succeeds:
both internal `build` calls return `ok`, and the returned date has
`year = today.year + get_years_left`, `month = hash % 12 + 1 ∈ [1, 12]` and
`day = hash % max_day_of year month + 1 ∈ [1, max_day_of year month]`. -/
theorem get_death_date_spec (hasher : String → Nat) (u : User) (today : Date)
    (h1 : u.years_old today < MAX_YEARS_OLD)
    (h2 : today.year + MAX_YEARS_OLD ≤ 65535) :
    ∃ d, u.get_death_date hasher today = some d
      ∧ d.year = today.year + u.get_years_left hasher today
      ∧ d.month = u.calculate_hash hasher % 12 + 1
      ∧ 1 ≤ d.month ∧ d.month ≤ 12
      ∧ d.day = u.calculate_hash hasher % max_day_of d.year d.month + 1
      ∧ 1 ≤ d.day ∧ d.day ≤ max_day_of d.year d.month := by
  have hMAX : MAX_YEARS_OLD = 100 := rfl
  obtain ⟨hyl1, hyl2⟩ := years_left_bounds hasher u today h1
  have hm12 : u.calculate_hash hasher % 12 < 12 := Nat.mod_lt _ (by omega)
  have hwrap : (today.year + u.get_years_left hasher today) % 65536 =
      today.year + u.get_years_left hasher today := Nat.mod_eq_of_lt (by omega)
  have hmax1 := max_day_ge (today.year + u.get_years_left hasher today)
    (u.calculate_hash hasher % 12 + 1)
  have hdmax : u.calculate_hash hasher %
      max_day_of (today.year + u.get_years_left hasher today)
        (u.calculate_hash hasher % 12 + 1) <
      max_day_of (today.year + u.get_years_left hasher today)
        (u.calculate_hash hasher % 12 + 1) :=
    Nat.mod_lt _ (by omega)
  have hb1 : build (today.year + u.get_years_left hasher today)
      (u.calculate_hash hasher % 12 + 1) 1 =
      .ok ⟨today.year + u.get_years_left hasher today,
        u.calculate_hash hasher % 12 + 1, 1⟩ := by
    unfold build
    split_ifs with ha hb hc
    · exact absurd ha (by omega)
    · exact absurd hb (by omega)
    · exact absurd hc (by omega)
    · rfl
  have hb2 : build (today.year + u.get_years_left hasher today)
      (u.calculate_hash hasher % 12 + 1)
      (u.calculate_hash hasher %
        max_day_of (today.year + u.get_years_left hasher today)
          (u.calculate_hash hasher % 12 + 1) + 1) =
      .ok ⟨today.year + u.get_years_left hasher today,
        u.calculate_hash hasher % 12 + 1,
        u.calculate_hash hasher %
          max_day_of (today.year + u.get_years_left hasher today)
            (u.calculate_hash hasher % 12 + 1) + 1⟩ := by
    unfold build
    split_ifs with ha hb hc
    · exact absurd ha (by omega)
    · exact absurd hb (by omega)
    · exact absurd hc (by omega)
    · rfl
  have hmain : u.get_death_date hasher today =
      some ⟨today.year + u.get_years_left hasher today,
        u.calculate_hash hasher % 12 + 1,
        u.calculate_hash hasher %
          max_day_of (today.year + u.get_years_left hasher today)
            (u.calculate_hash hasher % 12 + 1) + 1⟩ := by
    simp only [User.get_death_date, hwrap, hb1, hb2]
  refine ⟨_, hmain, rfl, rfl, ?_, ?_, rfl, ?_, ?_⟩ <;> dsimp only <;> omega

/-- C3 witness: a fresh user hashed to 0 on 12 October 2026 gets the valid
death date 1 January 2027. -/
theorem get_death_date_spec_witness :
    ∃ d, User.new.get_death_date (fun _ => 0) ⟨2026, 10, 12⟩ = some d
      ∧ d.year = (2026 : Nat) + User.new.get_years_left (fun _ => 0) ⟨2026, 10, 12⟩
      ∧ d.month = User.new.calculate_hash (fun _ => 0) % 12 + 1
      ∧ 1 ≤ d.month ∧ d.month ≤ 12
      ∧ d.day = User.new.calculate_hash (fun _ => 0) %
          max_day_of d.year d.month + 1
      ∧ 1 ≤ d.day ∧ d.day ≤ max_day_of d.year d.month :=
  get_death_date_spec (fun _ => 0) User.new ⟨2026, 10, 12⟩ (by decide) (by decide)

/-- C5 counterexample: no age validation happens at profile construction.
Through the public interface (`User::new`, then `set_birthday` with a
birthday the CLI's own `parse_birthday` accepts, since 1 January 1900 is not
in the future of 12 October 2026) one obtains a profile whose age is 126,
not below `MAX_YEARS_OLD = 100`; there the mathematical subtraction
`MAX_YEARS_OLD - age` underflows (it is negative; the wrapping u16
subtraction the code performs yields 65510). -/
theorem age_validation_cx :
    parse_birthday "1/1/1900" ⟨2026, 10, 12⟩ = some ⟨1900, 1, 1⟩
    ∧ (User.new.set_birthday ⟨1900, 1, 1⟩).years_old ⟨2026, 10, 12⟩ = 126
    ∧ ¬ ((User.new.set_birthday ⟨1900, 1, 1⟩).years_old ⟨2026, 10, 12⟩ <
        MAX_YEARS_OLD)
    ∧ MAX_YEARS_OLD - 126 = 0
    ∧ subWrap16 MAX_YEARS_OLD 126 = 65510 := by
  decide

/-- C5 (amended): the public interface does not validate the age against
`MAX_YEARS_OLD` at profile construction (a profile with age ≥ the bound is
constructible, see the counterexample); whenever a profile's age is below
the bound, the modulus argument `MAX_YEARS_OLD - age` is strictly positive
and the u16 subtraction does not underflow. -/
theorem years_left_bound_pos (u : User) (today : Date)
    (h : u.years_old today < MAX_YEARS_OLD) :
    0 < MAX_YEARS_OLD - u.years_old today
    ∧ subWrap16 MAX_YEARS_OLD (u.years_old today) =
        MAX_YEARS_OLD - u.years_old today := by
  have hMAX : MAX_YEARS_OLD = 100 := rfl
  constructor
  · omega
  · exact subWrap16_eq _ _ (le_of_lt h) (by omega)

/-- C5 witness: a fresh user aged 56 on 12 October 2026 gives the positive
bound 44. -/
theorem years_left_bound_pos_witness :
    0 < MAX_YEARS_OLD - User.new.years_old ⟨2026, 10, 12⟩
    ∧ subWrap16 MAX_YEARS_OLD (User.new.years_old ⟨2026, 10, 12⟩) =
        MAX_YEARS_OLD - User.new.years_old ⟨2026, 10, 12⟩ :=
  years_left_bound_pos User.new ⟨2026, 10, 12⟩ (by decide)

/-- C6 counterexample: the identity is not a 64-bit value.  With a hasher
whose 64-bit output is 65536 (a perfectly legal u64), the stored identity is
`65536 % 2 ^ 16 = 0` — the `as u16` cast in `calculate_hash` truncates the
64-bit hash to 16 bits, so identities never range over the 64-bit space. -/
theorem calculate_hash_cx :
    (65536 : Nat) < 2 ^ 64
    ∧ User.calculate_hash (fun _ => 65536) User.new = 0
    ∧ User.calculate_hash (fun _ => 65536) User.new ≠ 65536 := by
  decide

/-- C6 (amended): the identity is the 64-bit name hash truncated to a 16-bit
unsigned integer; it is deterministic — equal name strings yield equal
identities — and always lies below `2 ^ 16`. -/
theorem calculate_hash_spec (hasher : String → Nat) (u v : User)
    (h : u.name = v.name) :
    u.calculate_hash hasher = v.calculate_hash hasher
    ∧ u.calculate_hash hasher < 65536 := by
  unfold User.calculate_hash
  rw [h]
  exact ⟨rfl, Nat.mod_lt _ (by omega)⟩

/-- C6 witness: two profiles both named `"None"` share the identity 0 with
the constant-0 hasher. -/
theorem calculate_hash_spec_witness :
    User.new.calculate_hash (fun _ => 0) =
      (User.new.set_birthday ⟨1990, 11, 12⟩).calculate_hash (fun _ => 0)
    ∧ User.new.calculate_hash (fun _ => 0) < 65536 :=
  calculate_hash_spec (fun _ => 0) User.new
    (User.new.set_birthday ⟨1990, 11, 12⟩) rfl

/-- C7 counterexample: `get_danger` ignores the repository's configured
causes list.  With identity 7 and the repository's own 14-entry causes list
`default_death_reasons`, the claim predicts entry `7 % 14 = 7`, which is
`"construction"`, but `get_danger` answers `"building"` from its private
hardcoded list. -/
theorem get_danger_cx :
    User.calculate_hash (fun _ => 7) User.new = 7
    ∧ default_death_reasons.length = 14
    ∧ default_death_reasons.getD (7 % 14) "" = "construction"
    ∧ User.get_danger (fun _ => 7) User.new = "building"
    ∧ ("building" : String) ≠ "construction" := by
  decide

/-- C7 (amended): `get_danger` selects index `identity % 14` of its own
hardcoded 14-entry `dangers` list (ignoring any configured causes list, and
differing from `default_death_reasons` at index 7), so the result is always
one of those 14 entries; as a pure function of the profile it is identical
across repeated calls. -/
theorem get_danger_spec (hasher : String → Nat) (u : User) :
    u.get_danger hasher = dangers.getD (u.calculate_hash hasher % 14) ""
    ∧ u.get_danger hasher ∈ dangers := by
  refine ⟨rfl, ?_⟩
  have h14 : ∀ n, n < 14 → dangers.getD n "" ∈ dangers := by decide
  exact h14 _ (Nat.mod_lt _ (by decide))

/-- C10: a freshly constructed user has birthday 1970-01-01 (whose `build`
unwrap succeeds) and name `"None"`; any two freshly constructed users are
equal, so they share the identity hash and produce identical predictions
(death date and danger) for any hasher and current date. -/
theorem new_user_spec (hasher : String → Nat) (today : Date) (u v : User)
    (hu : u = User.new) (hv : v = User.new) :
    User.new.birthday = ⟨1970, 1, 1⟩
    ∧ User.new.name = "None"
    ∧ build 1970 1 1 = .ok User.new.birthday
    ∧ u = v
    ∧ u.calculate_hash hasher = v.calculate_hash hasher
    ∧ u.get_death_date hasher today = v.get_death_date hasher today
    ∧ u.get_danger hasher = v.get_danger hasher := by
  subst hu hv
  exact ⟨rfl, rfl, by decide, rfl, rfl, rfl, rfl⟩

/-- C10 witness: instantiated at two freshly constructed users with the
constant-0 hasher on 12 October 2026. -/
theorem new_user_spec_witness :
    User.new.birthday = ⟨1970, 1, 1⟩
    ∧ User.new.name = "None"
    ∧ build 1970 1 1 = .ok User.new.birthday
    ∧ User.new = User.new
    ∧ User.new.calculate_hash (fun _ => 0) =
        User.new.calculate_hash (fun _ => 0)
    ∧ User.new.get_death_date (fun _ => 0) ⟨2026, 10, 12⟩ =
        User.new.get_death_date (fun _ => 0) ⟨2026, 10, 12⟩
    ∧ User.new.get_danger (fun _ => 0) = User.new.get_danger (fun _ => 0) :=
  new_user_spec (fun _ => 0) ⟨2026, 10, 12⟩ User.new User.new rfl rfl

end Death
